import Mathlib

/-!
Shallow embedding of the cosmic-launcher controller state machine
(`src/app.rs`, `CosmicLauncher`).  Pure data is translated directly; the
`update` / `dbus_activation` handlers become functions from a message and a
state to a new state plus a trace of emitted effects (backend-channel
requests and window-lifecycle commands), in the order the source emits
them.  The recursive self-dispatch used to drain the pending queue is
realised with a fuel parameter; `Res.fuelOut` marks fuel exhaustion and
`Res.crash` marks a Rust panic (remainder by zero / usize underflow).
-/

/-- Icon source of a search result (`pop_launcher::IconSource`). -/
inductive IconSource
  | name (s : String)
  | mime (s : String)
deriving DecidableEq, Repr

/-- A backend search result (`pop_launcher::SearchResult`); the controller
only reads `id` and `window`, the remaining fields are carried opaquely.
The window marker is a pair of numeric ids. -/
structure SearchResult where
  id : Nat
  name : String
  description : String
  icon : Option IconSource := none
  category_icon : Option IconSource := none
  window : Option (Nat × Nat) := none
deriving DecidableEq, Repr

/-- A context-menu option (`pop_launcher::ContextOption`). -/
structure ContextOption where
  id : Nat
  name : String
deriving DecidableEq, Repr

/-- GPU preference attached to a desktop-entry response
(`pop_launcher::GpuPreference`). -/
inductive GpuPreference
  | default
  | nonDefault
  | specificIdx (idx : Nat)
deriving DecidableEq, Repr

/-- Modelled from the spec: the request variants of the backend channel
(`launcher::Request`; `src/subscriptions/launcher.rs` is not among the
provided sources, the variants are those used by `app.rs` and listed in
the spec's Backend Channel contract). -/
inductive Request
  | search (text : String)
  | activate (id : Nat)
  | complete (id : Nat)
  | context (id : Nat)
  | activateContext (id : Nat) (option_id : Nat)
  | close
  | serviceIsClosed
deriving DecidableEq, Repr

/-- Backend responses (`pop_launcher::Response`). -/
inductive Response
  | close
  | context (id : Nat) (options : List ContextOption)
  | desktopEntry (path : String) (gpu : GpuPreference) (actionName : Option String)
  | update (list : List SearchResult)
  | fill (text : String)
deriving DecidableEq, Repr

/-- Modelled from the spec: events of the backend channel
(`launcher::Event`, from `src/subscriptions/launcher.rs` which is not among
the provided sources).  `started` delivers the request send-handle. -/
inductive LauncherEvent
  | started
  | serviceIsClosed
  | response (r : Response)
deriving DecidableEq, Repr

/-- Wayland layer-surface events reaching the controller (`LayerEvent`). -/
inductive LayerEvent
  | focused
  | unfocused
  | done
deriving DecidableEq, Repr

/-- Keyboard-navigation intents (`cosmic::keyboard_nav::Message`); variants
the controller ignores are collapsed into `other`. -/
inductive NavMessage
  | focusNext
  | focusPrevious
  | unfocus
  | other
deriving DecidableEq, Repr

/-- The controller's message type (`Message` in `app.rs`).  The cursor
position is modelled with integer coordinates: the only use of the
position rounds it to integers for the popup anchor. -/
inductive Message
  | inputChanged (value : String)
  | backspace
  | tabPress
  | completeFocusedId (id : Nat)
  | activate (i : Option Nat)
  | context (i : Nat)
  | menuButton (i : Nat) (ctx : Nat)
  | closeContextMenu
  | cursorMoved (p : Int × Int)
  | hide
  | launcherEvent (e : LauncherEvent)
  | layer (e : LayerEvent)
  | keyboardNav (n : NavMessage)
  | activationToken (token : Option String) (exec : String) (gpu : GpuPreference)
  | altTab
  | shiftAltTab
  | altRelease
deriving DecidableEq, Repr

/-- Visibility lifecycle of the main popup (`SurfaceState`). -/
inductive SurfaceState
  | visible
  | hidden
  | waitingToBeShown
deriving DecidableEq, Repr

/-- The controller state (`CosmicLauncher` minus the iced `Core`).  The
backend send-handle `tx : Option<Sender<_>>` is modelled by the Boolean
`tx` (present or not); `last_hide : Instant` becomes a millisecond
timestamp with process start at 0. -/
structure St where
  input_value : String
  surface_state : SurfaceState
  launcher_items : List SearchResult
  tx : Bool
  menu : Option (Nat × List ContextOption)
  cursor_position : Option (Int × Int)
  focused : Nat
  last_hide : Nat
  alt_tab : Bool
  queue : List Message
deriving DecidableEq, Repr

/-- Effects emitted by the controller, in program order: backend-channel
requests (`self.request`) and window-lifecycle commands.  Desktop-entry
resolution (`load_desktop_file` plus `request_token`) depends on the
filesystem and is abstracted as the single opaque command
`desktopEntryCmd`; launching (`Command::perform(launch ...)`) is the
opaque command `launchCmd`. -/
inductive Effect
  | req (r : Request)
  | getLayerSurface
  | destroyLayerSurface
  | getPopup
  | destroyPopup
  | findFocusedCmd
  | unfocusCmd
  | desktopEntryCmd (path : String) (gpu : GpuPreference) (actionName : Option String)
  | launchCmd (token : Option String) (exec : String) (gpu : GpuPreference)
deriving DecidableEq, Repr

/-- Result of dispatching a message: a new state and the effect trace,
or a Rust panic (`crash`), or fuel exhaustion of the embedding
(`fuelOut`, never reached by the actual program's bounded recursion). -/
inductive Res
  | ok (s : St) (eff : List Effect)
  | crash
  | fuelOut
deriving DecidableEq, Repr

/-- `CosmicLauncher::request`: a best-effort send that is dropped (logged)
when the backend handle is absent. -/
def requestEff (s : St) (r : Request) : List Effect :=
  if s.tx then [Effect.req r] else []

/-- Rust `%` on `usize`: panics when the divisor is zero. -/
def checkedMod (a b : Nat) : Option Nat :=
  if b = 0 then none else some (a % b)

/-- `CosmicLauncher::focus_next`: `(focused + 1) % launcher_items.len()`;
`none` models the division-by-zero panic on an empty result list. -/
def focusNextSt (s : St) : Option St :=
  match checkedMod (s.focused + 1) s.launcher_items.length with
  | some v => some { s with focused := v }
  | none => none

/-- `CosmicLauncher::focus_previous`:
`(focused + len - 1) % len`; on `len = 0` the source panics (usize
underflow in debug, remainder by zero in release), modelled as `none`. -/
def focusPrevSt (s : St) : Option St :=
  match checkedMod (s.focused + s.launcher_items.length - 1) s.launcher_items.length with
  | some v => some { s with focused := v }
  | none => none

/-- `CosmicLauncher::hide`: clears the input, focus, switcher flag and
queue, sends `Request::Close`, destroys the main surface (and the menu
popup when one is open) when the surface was visible, and enters
`Hidden`.  `last_hide` is not touched here. -/
def hideSt (s : St) : St × List Effect :=
  let s1 : St := { s with input_value := "", focused := 0, alt_tab := false, queue := [] }
  let e1 := requestEff s1 Request.close
  if s1.surface_state = SurfaceState.visible then
    ({ s1 with menu := none, surface_state := SurfaceState.hidden },
      e1 ++ [Effect.destroyLayerSurface]
         ++ (if s1.menu.isSome then [Effect.destroyPopup] else []))
  else
    ({ s1 with surface_state := SurfaceState.hidden }, e1)

/-- `CosmicLauncher::show`: enters `Visible` and issues the
create-main-surface command (`get_layer_surface`). -/
def showSt (s : St) : St × List Effect :=
  ({ s with surface_state := SurfaceState.visible }, [Effect.getLayerSurface])

/-- Sort key of the result ordering in `Response::Update`:
`i32::from(a.window.is_none())`, so window-backed results sort first. -/
def sortKey (r : SearchResult) : Nat :=
  if r.window.isNone then 1 else 0

/-- The `list.sort_by(...)` call of the `Response::Update` handler.  Rust's
`slice::sort_by` is a stable sort; insertion sort is stable, hence
extensionally equal to it for this comparator. -/
def sortResults (l : List SearchResult) : List SearchResult :=
  List.insertionSort (fun a b => sortKey a ≤ sortKey b) l

/-- Position of an iced widget `Id` within `RESULT_IDS` with
`unwrap_or_default`: the ten result ids are modelled by `0..9`, any other
id by a number `≥ 10` (yielding position `0`, the `unwrap_or_default`). -/
def resultIdPos (id : Nat) : Nat :=
  if id < 10 then id else 0

mutual

/-- One level of `CosmicLauncher::update`, parameterised by the next-lower
fuel level's dispatcher and queue drainer. -/
def updBody (upd : Nat → Message → St → Res) (drain : Nat → St → Res)
    (now : Nat) (m : Message) (s : St) : Res :=
  match m with
  | Message.inputChanged value =>
      Res.ok { s with input_value := value } (requestEff s (Request.search value))
  | Message.backspace =>
      let v := s.input_value.dropRight 1
      Res.ok { s with input_value := v } (requestEff s (Request.search v))
  | Message.tabPress =>
      if s.alt_tab then Res.ok s []
      else Res.ok { s with focused := 0 } [Effect.findFocusedCmd]
  | Message.completeFocusedId id =>
      match s.launcher_items[resultIdPos id]? with
      | some res => Res.ok s (requestEff s (Request.complete res.id))
      | none => Res.ok s []
  | Message.activate i =>
      match s.launcher_items[i.getD s.focused]? with
      | some item => Res.ok s (requestEff s (Request.activate item.id))
      | none =>
          let p := hideSt s
          Res.ok p.1 p.2
  | Message.context i =>
      if s.menu.isSome then Res.ok { s with menu := none } [Effect.destroyPopup]
      else
        match s.launcher_items[i]? with
        | some item => Res.ok s (requestEff s (Request.context item.id))
        | none => Res.ok s []
  | Message.menuButton i ctx =>
      let e := requestEff s (Request.activateContext i ctx)
      if s.menu.isSome then Res.ok { s with menu := none } (e ++ [Effect.destroyPopup])
      else Res.ok s e
  | Message.closeContextMenu =>
      if s.menu.isSome then Res.ok { s with menu := none } [Effect.destroyPopup]
      else Res.ok s []
  | Message.cursorMoved p =>
      Res.ok { s with cursor_position := some p } []
  | Message.hide =>
      if s.menu.isSome then Res.ok { s with menu := none } [Effect.destroyPopup]
      else
        let p := hideSt s
        Res.ok p.1 p.2
  | Message.launcherEvent ev =>
      match ev with
      | LauncherEvent.started => Res.ok { s with tx := true } []
      | LauncherEvent.serviceIsClosed => Res.ok s (requestEff s Request.serviceIsClosed)
      | LauncherEvent.response r =>
          match r with
          | Response.close =>
              let p := hideSt s
              Res.ok p.1 p.2
          | Response.context id options =>
              if options = [] then Res.ok s []
              else
                let s1 : St := { s with menu := some (id, options) }
                match s.cursor_position with
                | none => Res.ok s1 []
                | some _ => Res.ok s1 [Effect.getPopup]
          | Response.desktopEntry path gpu actionName =>
              Res.ok s [Effect.desktopEntryCmd path gpu actionName]
          | Response.update list =>
              if s.alt_tab = true ∧ list = [] then
                let p := hideSt s
                Res.ok p.1 p.2
              else
                let s1 : St := { s with launcher_items := (sortResults list).take 10 }
                match drain now s1 with
                | Res.ok s2 eff =>
                    if s2.surface_state = SurfaceState.waitingToBeShown then
                      let p := showSt s2
                      Res.ok p.1 (eff ++ p.2)
                    else Res.ok s2 eff
                | Res.crash => Res.crash
                | Res.fuelOut => Res.fuelOut
          | Response.fill text =>
              Res.ok { s with input_value := text } (requestEff s (Request.search text))
  | Message.layer e =>
      match e with
      | LayerEvent.focused => Res.ok s []
      | LayerEvent.done => Res.ok s []
      | LayerEvent.unfocused =>
          let p := hideSt { s with last_hide := now }
          Res.ok p.1 p.2
  | Message.keyboardNav n =>
      match n with
      | NavMessage.focusNext =>
          match focusNextSt s with
          | some s1 => Res.ok s1 []
          | none => Res.crash
      | NavMessage.focusPrevious =>
          match focusPrevSt s with
          | some s1 => Res.ok s1 []
          | none => Res.crash
      | NavMessage.unfocus =>
          Res.ok { s with input_value := "" }
            (requestEff s (Request.search "") ++ [Effect.unfocusCmd])
      | NavMessage.other => Res.ok s []
  | Message.activationToken token exec gpu =>
      Res.ok s [Effect.launchCmd token exec gpu]
  | Message.altTab =>
      match focusNextSt s with
      | some s1 => Res.ok s1 []
      | none => Res.crash
  | Message.shiftAltTab =>
      match focusPrevSt s with
      | some s1 => Res.ok s1 []
      | none => Res.crash
  | Message.altRelease =>
      if s.alt_tab then upd now (Message.activate none) s else Res.ok s []

/-- One level of the `Response::Update` queue-drain loop
(`while let Some(element) = self.queue.pop_front() ...`): pop the front,
dispatch it on the state with the remaining queue, continue with whatever
queue the sub-dispatch left behind. -/
def drainBody (upd : Nat → Message → St → Res) (drain : Nat → St → Res)
    (now : Nat) (s : St) : Res :=
  match s.queue with
  | [] => Res.ok s []
  | m :: rest =>
      match upd now m { s with queue := rest } with
      | Res.ok s1 e1 =>
          match drain now s1 with
          | Res.ok s2 e2 => Res.ok s2 (e1 ++ e2)
          | Res.crash => Res.crash
          | Res.fuelOut => Res.fuelOut
      | Res.crash => Res.crash
      | Res.fuelOut => Res.fuelOut

end

/-- Fuelled pair of the dispatcher and the queue drainer; structural
recursion on the fuel keeps every run kernel-computable. -/
def updAux : Nat → ((Nat → Message → St → Res) × (Nat → St → Res))
  | 0 => (fun _ _ _ => Res.fuelOut, fun _ _ => Res.fuelOut)
  | f + 1 =>
      (updBody (updAux f).1 (updAux f).2, drainBody (updAux f).1 (updAux f).2)

/-- `CosmicLauncher::update`, with fuel and the current time (the time is
only read by the `LayerEvent::Unfocused` branch). -/
def updateF (fuel now : Nat) (m : Message) (s : St) : Res :=
  (updAux fuel).1 now m s

/-- The queue-drain loop at a given fuel level. -/
def drainF (fuel now : Nat) (s : St) : Res :=
  (updAux fuel).2 now s

/-- The two named dbus sub-commands (`LauncherCommands`). -/
inductive LauncherCommands
  | altTab
  | shiftAltTab
deriving DecidableEq, Repr

/-- Inbound dbus activation signals (`DbusActivationDetails`); the action
payload is pre-parsed: `none` stands for an unparsable action string. -/
inductive DbusMsg
  | activate
  | activateAction (cmd : Option LauncherCommands)
  | openFiles
deriving DecidableEq, Repr

/-- `CosmicLauncher::dbus_activation`.  `Activate` toggles: hide when not
hidden, otherwise (when more than 100ms have passed since `last_hide`)
prime an empty search and wait to be shown.  `ActivateAction` enters or
advances the alt-tab switcher. -/
def dbusF : Nat → Nat → DbusMsg → St → Res
  | 0, _, _, _ => Res.fuelOut
  | f + 1, now, d, s =>
      match d with
      | DbusMsg.activate =>
          if s.surface_state ≠ SurfaceState.hidden then
            let p := hideSt s
            Res.ok p.1 p.2
          else if now - s.last_hide > 100 then
            Res.ok { s with surface_state := SurfaceState.waitingToBeShown }
              (requestEff s (Request.search ""))
          else Res.ok s []
      | DbusMsg.activateAction a =>
          match a with
          | none => Res.ok s []
          | some cmd =>
              let s1 : St :=
                if s.surface_state = SurfaceState.hidden then
                  { s with surface_state := SurfaceState.waitingToBeShown }
                else s
              match cmd with
              | LauncherCommands.altTab =>
                  if s1.alt_tab then updateF f now Message.altTab s1
                  else
                    let s2 : St := { s1 with alt_tab := true }
                    Res.ok { s2 with queue := s2.queue ++ [Message.altTab] }
                      (requestEff s2 (Request.search ""))
              | LauncherCommands.shiftAltTab =>
                  if s1.alt_tab then updateF f now Message.shiftAltTab s1
                  else
                    let s2 : St := { s1 with alt_tab := true }
                    Res.ok { s2 with queue := s2.queue ++ [Message.shiftAltTab] }
                      (requestEff s2 (Request.search ""))
      | DbusMsg.openFiles => Res.ok s []

/-- The initial controller state (`CosmicLauncher::init`): hidden, empty
input, no results, no backend handle, `last_hide` = process start = 0. -/
def initSt : St :=
  { input_value := ""
    surface_state := SurfaceState.hidden
    launcher_items := []
    tx := false
    menu := none
    cursor_position := none
    focused := 0
    last_hide := 0
    alt_tab := false
    queue := [] }

/-- Reachability of a controller state: the initial state, closed under
successful message dispatches and dbus activations (the environment
chooses arrival times). -/
inductive Reach : St → Prop
  | start : Reach initSt
  | step (fuel now : Nat) (m : Message) (s s' : St) (eff : List Effect) :
      Reach s → updateF fuel now m s = Res.ok s' eff → Reach s'
  | stepDbus (fuel now : Nat) (d : DbusMsg) (s s' : St) (eff : List Effect) :
      Reach s → dbusF fuel now d s = Res.ok s' eff → Reach s'

/-- Predicate singling out the `Response::Update` message, the only
message whose handling replaces `launcher_items`. -/
def isUpdateMsg : Message → Bool
  | Message.launcherEvent (LauncherEvent.response (Response.update _)) => true
  | _ => false

/-- Ordering relation of the displayed result list: a window-less result
never precedes a window-backed one. -/
def winPrecedes (a b : SearchResult) : Prop :=
  b.window.isSome = true → a.window.isSome = true

/-- Decimal rendering of the digits produced by `(0..10)` in the
subscription's Ctrl+digit table (`n.to_string()`; only ever applied to
`0..=9`). -/
def digitStr : Nat → String
  | 0 => "0"
  | 1 => "1"
  | 2 => "2"
  | 3 => "3"
  | 4 => "4"
  | 5 => "5"
  | 6 => "6"
  | 7 => "7"
  | 8 => "8"
  | _ => "9"

/-- The index computed by the subscription for Ctrl+digit `n`:
`((n + 10) % 10) - 1` in `usize`.  For `n = 0` the subtraction underflows;
release builds wrap to `usize::MAX = 2^64 - 1` (debug builds panic), which
is modelled by wrapping arithmetic modulo `2^64`. -/
def ctrlDigitIndex (n : Nat) : Nat :=
  ((n + 10) % 10 + (2 ^ 64 - 1)) % 2 ^ 64

/-- The `Key::Character c if modifiers.control()` arms of the raw-event
subscription: Ctrl+p/k map to focus-previous, Ctrl+n/j to focus-next, and
any other character is looked up in the digit table built from `(0..10)`,
yielding an activate-at-index message. -/
def ctrlCharMessage (c : String) : Option Message :=
  if c = "p" ∨ c = "k" then some (Message.keyboardNav NavMessage.focusPrevious)
  else if c = "n" ∨ c = "j" then some (Message.keyboardNav NavMessage.focusNext)
  else
    (((List.range 10).map fun n => (digitStr n, ctrlDigitIndex n)).findSome?
      fun p => if p.1 = c then some (Message.activate (some p.2)) else none)

/-- A sample window-less search result. -/
def r1 : SearchResult := { id := 1, name := "term", description := "terminal" }

/-- A sample context option. -/
def opt1 : ContextOption := { id := 7, name := "open" }

/-- Sample window-backed results for switcher traces. -/
def rw1 : SearchResult := { id := 21, name := "w1", description := "d1", window := some (0, 1) }

/-- Second window-backed sample result. -/
def rw2 : SearchResult := { id := 22, name := "w2", description := "d2", window := some (0, 2) }

/-- State after the backend channel started: `initSt` with a send handle. -/
def stTx : St := { initSt with tx := true }

/-- State after an activate signal at t=200ms: waiting to be shown. -/
def stWait : St := { stTx with surface_state := SurfaceState.waitingToBeShown }

/-- State after the first result update made the surface visible. -/
def stVis : St :=
  { stWait with launcher_items := [r1], surface_state := SurfaceState.visible }

/-- Visible state with the query buffer holding "a". -/
def stVisA : St := { stVis with input_value := "a" }

/-- Visible state with a known cursor position. -/
def stVisCur : St := { stVisA with cursor_position := some (5, 5) }

/-- Visible state with an open context menu for result `r1`. -/
def stMenu : St := { stVisCur with menu := some (1, [opt1]) }

/-- Visible state whose result list is empty (reachable when a search
returns no results while waiting to be shown). -/
def stVisEmpty : St := { stWait with surface_state := SurfaceState.visible }

/-- Switcher state waiting to be shown with two queued cycle messages. -/
def stQueue : St :=
  { initSt with
    surface_state := SurfaceState.waitingToBeShown
    alt_tab := true
    queue := [Message.altTab, Message.altTab] }

lemma reach_stTx : Reach stTx :=
  Reach.step 1 0 (Message.launcherEvent LauncherEvent.started) initSt stTx [] Reach.start rfl

lemma reach_stWait : Reach stWait :=
  Reach.stepDbus 1 200 DbusMsg.activate stTx stWait [Effect.req (Request.search "")]
    reach_stTx rfl

lemma reach_stVis : Reach stVis :=
  Reach.step 2 300 (Message.launcherEvent (LauncherEvent.response (Response.update [r1])))
    stWait stVis [Effect.getLayerSurface] reach_stWait rfl

lemma reach_stVisA : Reach stVisA :=
  Reach.step 1 350 (Message.inputChanged "a") stVis stVisA [Effect.req (Request.search "a")]
    reach_stVis rfl

lemma reach_stVisCur : Reach stVisCur :=
  Reach.step 1 400 (Message.cursorMoved (5, 5)) stVisA stVisCur [] reach_stVisA rfl

lemma reach_stMenu : Reach stMenu :=
  Reach.step 1 500 (Message.launcherEvent (LauncherEvent.response (Response.context 1 [opt1])))
    stVisCur stMenu [Effect.getPopup] reach_stVisCur rfl

lemma reach_stVisEmpty : Reach stVisEmpty :=
  Reach.step 2 300 (Message.launcherEvent (LauncherEvent.response (Response.update [])))
    stWait stVisEmpty [Effect.getLayerSurface] reach_stWait rfl

lemma hideSt_input (s : St) : (hideSt s).1.input_value = "" := by
  unfold hideSt; dsimp only; split_ifs <;> rfl

lemma hideSt_focused (s : St) : (hideSt s).1.focused = 0 := by
  unfold hideSt; dsimp only; split_ifs <;> rfl

lemma hideSt_alt_tab (s : St) : (hideSt s).1.alt_tab = false := by
  unfold hideSt; dsimp only; split_ifs <;> rfl

lemma hideSt_queue (s : St) : (hideSt s).1.queue = [] := by
  unfold hideSt; dsimp only; split_ifs <;> rfl

lemma hideSt_surface (s : St) : (hideSt s).1.surface_state = SurfaceState.hidden := by
  unfold hideSt; dsimp only; split_ifs <;> rfl

lemma hideSt_items (s : St) : (hideSt s).1.launcher_items = s.launcher_items := by
  unfold hideSt; dsimp only; split_ifs <;> rfl

lemma hideSt_last_hide (s : St) : (hideSt s).1.last_hide = s.last_hide := by
  unfold hideSt; dsimp only; split_ifs <;> rfl

lemma hideSt_menu_none (s : St) (h : s.menu = none) : (hideSt s).1.menu = none := by
  unfold hideSt; dsimp only; split_ifs <;> simp [h]

lemma hideSt_no_getLayer (s : St) : Effect.getLayerSurface ∉ (hideSt s).2 := by
  intro h
  unfold hideSt requestEff at h
  dsimp only at h
  split_ifs at h <;> simp_all

/-- C1 counterexample: in the reachable visible state `stMenu` (context
menu open, query "a"), the `Hide` message only closes the menu — the
input is not cleared and the surface stays visible, so "hide resets
fully" fails as stated for the Hide message. -/
theorem hide_with_open_menu_does_not_reset :
    Reach stMenu
    ∧ updateF 1 5000 Message.hide stMenu = Res.ok { stMenu with menu := none } [Effect.destroyPopup]
    ∧ ({ stMenu with menu := none } : St).input_value = "a"
    ∧ ({ stMenu with menu := none } : St).surface_state = SurfaceState.visible :=
  ⟨reach_stMenu, rfl, rfl, rfl⟩

/-- C1 (amended): with no open context menu, the `Hide` message performs a
full reset — empty input, focus 0, switcher off, empty queue, no menu,
state `Hidden`; with an open context menu, `Hide` only closes the menu
(destroying the popup) and leaves the rest of the state unchanged. -/
theorem hide_resets_and_menu_toggle :
    (∀ f now s s' eff, s.menu = none →
        updateF (f + 1) now Message.hide s = Res.ok s' eff →
        s'.input_value = "" ∧ s'.focused = 0 ∧ s'.alt_tab = false ∧ s'.queue = [] ∧
          s'.menu = none ∧ s'.surface_state = SurfaceState.hidden)
    ∧ (∀ f now s, s.menu.isSome = true →
        updateF (f + 1) now Message.hide s = Res.ok { s with menu := none } [Effect.destroyPopup]) := by
  constructor
  · intro f now s s' eff hm h
    simp only [updateF, updAux, updBody, hm, Option.isSome_none, Bool.false_eq_true,
      if_false, Res.ok.injEq] at h
    obtain ⟨h1, h2⟩ := h
    subst h1
    exact ⟨hideSt_input s, hideSt_focused s, hideSt_alt_tab s, hideSt_queue s,
      hideSt_menu_none s hm, hideSt_surface s⟩
  · intro f now s hm
    simp [updateF, updAux, updBody, hm]

/-- C1 witness: instantiating the amended theorem at the initial state
(no menu) and at `stMenu` (menu open). -/
theorem hide_resets_and_menu_toggle_witness :
    (initSt.menu = none
      ∧ ((hideSt initSt).1.input_value = "" ∧ (hideSt initSt).1.focused = 0
        ∧ (hideSt initSt).1.alt_tab = false ∧ (hideSt initSt).1.queue = []
        ∧ (hideSt initSt).1.menu = none
        ∧ (hideSt initSt).1.surface_state = SurfaceState.hidden))
    ∧ (stMenu.menu.isSome = true
      ∧ updateF 1 0 Message.hide stMenu = Res.ok { stMenu with menu := none } [Effect.destroyPopup]) :=
  ⟨⟨rfl, hide_resets_and_menu_toggle.1 0 0 initSt (hideSt initSt).1 (hideSt initSt).2 rfl rfl⟩,
    ⟨rfl, hide_resets_and_menu_toggle.2 0 0 stMenu rfl⟩⟩

/-- C2: the empty-results case of the focus-movement handlers is NOT
guarded — in the reachable visible state with an empty result list, every
focus-movement message (keyboard navigation and the alt-tab cycle
messages) evaluates `(focused ± 1) % 0`, a Rust panic, modelled as
`Res.crash`. -/
theorem focus_move_on_empty_results_crashes :
    Reach stVisEmpty
    ∧ stVisEmpty.surface_state = SurfaceState.visible
    ∧ stVisEmpty.launcher_items = []
    ∧ updateF 1 0 (Message.keyboardNav NavMessage.focusNext) stVisEmpty = Res.crash
    ∧ updateF 1 0 (Message.keyboardNav NavMessage.focusPrevious) stVisEmpty = Res.crash
    ∧ updateF 1 0 Message.altTab stVisEmpty = Res.crash
    ∧ updateF 1 0 Message.shiftAltTab stVisEmpty = Res.crash :=
  ⟨reach_stVisEmpty, rfl, rfl, rfl, rfl, rfl, rfl⟩

/-- C5: an activate signal arriving while hidden and strictly within
100ms of the last hide leaves the state unchanged and issues no
request at all. -/
theorem toggle_debounce_noop :
    ∀ f now s, s.surface_state = SurfaceState.hidden → now - s.last_hide < 100 →
      dbusF (f + 1) now DbusMsg.activate s = Res.ok s [] := by
  intro f now s hs hd
  have h1 : ¬(s.surface_state ≠ SurfaceState.hidden) := by simp [hs]
  have h2 : ¬(now - s.last_hide > 100) := by omega
  simp only [dbusF]
  rw [if_neg h1, if_neg h2]

/-- C5 witness: an activate signal 50ms after process start (the initial
state records `last_hide = 0`) is debounced. -/
theorem toggle_debounce_noop_witness :
    initSt.surface_state = SurfaceState.hidden ∧ 50 - initSt.last_hide < 100
    ∧ dbusF 1 50 DbusMsg.activate initSt = Res.ok initSt [] :=
  ⟨rfl, by decide, toggle_debounce_noop 0 50 initSt rfl (by decide)⟩

/-- C7: evaluating the Ctrl+digit table. Ctrl+1..Ctrl+9 activate indices
0..8 as claimed, but Ctrl+0 does NOT activate index 9: the `usize`
computation `((0 + 10) % 10) - 1` underflows and (in release builds)
wraps to `usize::MAX`, so the claim's `(0 - 1) mod 10 = 9` case fails. -/
theorem ctrl_digit_table_eval :
    ctrlCharMessage "1" = some (Message.activate (some 0))
    ∧ ctrlCharMessage "2" = some (Message.activate (some 1))
    ∧ ctrlCharMessage "3" = some (Message.activate (some 2))
    ∧ ctrlCharMessage "4" = some (Message.activate (some 3))
    ∧ ctrlCharMessage "5" = some (Message.activate (some 4))
    ∧ ctrlCharMessage "6" = some (Message.activate (some 5))
    ∧ ctrlCharMessage "7" = some (Message.activate (some 6))
    ∧ ctrlCharMessage "8" = some (Message.activate (some 7))
    ∧ ctrlCharMessage "9" = some (Message.activate (some 8))
    ∧ ctrlCharMessage "0" = some (Message.activate (some (2 ^ 64 - 1)))
    ∧ ¬ ctrlCharMessage "0" = some (Message.activate (some 9)) := by
  refine ⟨rfl, rfl, rfl, rfl, rfl, rfl, rfl, rfl, rfl, rfl, ?_⟩
  decide

/-- C9: `Activate(N)` (N defaulting to the focused index) issues
`Request::Activate` with the indexed result's id when the index resolves,
and degrades to the hide transition when no such index exists. -/
theorem activate_lookup_or_hide :
    (∀ f now s i item, s.launcher_items[i.getD s.focused]? = some item →
        updateF (f + 1) now (Message.activate i) s =
          Res.ok s (requestEff s (Request.activate item.id)))
    ∧ (∀ f now s i, s.launcher_items.length ≤ i.getD s.focused →
        updateF (f + 1) now (Message.activate i) s = Res.ok (hideSt s).1 (hideSt s).2) := by
  constructor
  · intro f now s i item h
    simp only [updateF, updAux, updBody, h]
  · intro f now s i h
    have h2 : s.launcher_items[i.getD s.focused]? = none := List.getElem?_eq_none h
    simp only [updateF, updAux, updBody, h2]

/-- C9 witness: activating the focused result in `stVis` issues
`Request::Activate(1)`; activating with an empty result list hides. -/
theorem activate_lookup_or_hide_witness :
    stVis.launcher_items[(none : Option Nat).getD stVis.focused]? = some r1
    ∧ updateF 1 0 (Message.activate none) stVis =
        Res.ok stVis (requestEff stVis (Request.activate r1.id))
    ∧ stVisEmpty.launcher_items.length ≤ (none : Option Nat).getD stVisEmpty.focused
    ∧ updateF 1 0 (Message.activate none) stVisEmpty =
        Res.ok (hideSt stVisEmpty).1 (hideSt stVisEmpty).2 :=
  ⟨rfl, activate_lookup_or_hide.1 0 0 stVis none r1 rfl, by decide,
    activate_lookup_or_hide.2 0 0 stVisEmpty none (by decide)⟩

lemma updateF_succ (f now : Nat) (m : Message) (s : St) :
    updateF (f + 1) now m s = updBody (updAux f).1 (updAux f).2 now m s := rfl

lemma drainF_succ (f now : Nat) (s : St) :
    drainF (f + 1) now s = drainBody (updAux f).1 (updAux f).2 now s := rfl

lemma updAux_fst (f now : Nat) (m : Message) (s : St) :
    (updAux f).1 now m s = updateF f now m s := rfl

lemma updAux_snd (f now : Nat) (s : St) :
    (updAux f).2 now s = drainF f now s := rfl

lemma focusNextSt_fields {s s1 : St} (h : focusNextSt s = some s1) :
    s1.launcher_items = s.launcher_items ∧ s1.last_hide = s.last_hide ∧
      s1.queue = s.queue ∧ s1.surface_state = s.surface_state ∧ s1.menu = s.menu := by
  unfold focusNextSt at h
  split at h
  · cases h; exact ⟨rfl, rfl, rfl, rfl, rfl⟩
  · cases h

lemma focusPrevSt_fields {s s1 : St} (h : focusPrevSt s = some s1) :
    s1.launcher_items = s.launcher_items ∧ s1.last_hide = s.last_hide ∧
      s1.queue = s.queue ∧ s1.surface_state = s.surface_state ∧ s1.menu = s.menu := by
  unfold focusPrevSt at h
  split at h
  · cases h; exact ⟨rfl, rfl, rfl, rfl, rfl⟩
  · cases h

lemma items_preserved : ∀ f now m s s' eff, isUpdateMsg m = false →
    updateF f now m s = Res.ok s' eff → s'.launcher_items = s.launcher_items := by
  intro f
  induction f with
  | zero =>
      intro now m s s' eff _ h
      simp [updateF, updAux] at h
  | succ f ih =>
      intro now m s s' eff hm h
      rw [updateF_succ] at h
      cases m with
      | inputChanged v => simp only [updBody] at h; cases h; rfl
      | backspace => simp only [updBody] at h; cases h; rfl
      | tabPress => simp only [updBody] at h; split at h <;> (cases h; rfl)
      | completeFocusedId id => simp only [updBody] at h; split at h <;> (cases h; rfl)
      | activate i =>
          simp only [updBody] at h
          split at h
          · cases h; rfl
          · cases h; exact hideSt_items s
      | context i =>
          simp only [updBody] at h
          split at h
          · cases h; rfl
          · split at h <;> (cases h; rfl)
      | menuButton i ctx => simp only [updBody] at h; split at h <;> (cases h; rfl)
      | closeContextMenu => simp only [updBody] at h; split at h <;> (cases h; rfl)
      | cursorMoved p => simp only [updBody] at h; cases h; rfl
      | hide =>
          simp only [updBody] at h
          split at h
          · cases h; rfl
          · cases h; exact hideSt_items s
      | launcherEvent ev =>
          cases ev with
          | started => simp only [updBody] at h; cases h; rfl
          | serviceIsClosed => simp only [updBody] at h; cases h; rfl
          | response r =>
              cases r with
              | update l => simp [isUpdateMsg] at hm
              | close => simp only [updBody] at h; cases h; exact hideSt_items s
              | context id options =>
                  simp only [updBody] at h
                  split at h
                  · cases h; rfl
                  · split at h <;> (cases h; rfl)
              | desktopEntry p g a => simp only [updBody] at h; cases h; rfl
              | fill t => simp only [updBody] at h; cases h; rfl
      | layer e =>
          cases e with
          | focused => simp only [updBody] at h; cases h; rfl
          | done => simp only [updBody] at h; cases h; rfl
          | unfocused => simp only [updBody] at h; cases h; exact hideSt_items _
      | keyboardNav n =>
          cases n with
          | focusNext =>
              simp only [updBody] at h
              split at h
              · rename_i s1 heq; cases h; exact (focusNextSt_fields heq).1
              · cases h
          | focusPrevious =>
              simp only [updBody] at h
              split at h
              · rename_i s1 heq; cases h; exact (focusPrevSt_fields heq).1
              · cases h
          | unfocus => simp only [updBody] at h; cases h; rfl
          | other => simp only [updBody] at h; cases h; rfl
      | activationToken tok exec gpu => simp only [updBody] at h; cases h; rfl
      | altTab =>
          simp only [updBody] at h
          split at h
          · rename_i s1 heq; cases h; exact (focusNextSt_fields heq).1
          · cases h
      | shiftAltTab =>
          simp only [updBody] at h
          split at h
          · rename_i s1 heq; cases h; exact (focusPrevSt_fields heq).1
          · cases h
      | altRelease =>
          simp only [updBody] at h
          split at h
          · rw [updAux_fst] at h
            exact ih now (Message.activate none) s s' eff rfl h
          · cases h; rfl

/-- C10: the hide transition does not clear the cached result list, and
no message other than a `Response::Update` replaces `launcher_items`. -/
theorem hide_keeps_results_until_update :
    (∀ s, (hideSt s).1.launcher_items = s.launcher_items)
    ∧ (∀ fuel now m s s' eff, isUpdateMsg m = false →
        updateF fuel now m s = Res.ok s' eff → s'.launcher_items = s.launcher_items) :=
  ⟨hideSt_items, items_preserved⟩

/-- C10 witness: hiding the visible state `stVis` keeps its one-element
result list. -/
theorem hide_keeps_results_until_update_witness :
    isUpdateMsg Message.hide = false
    ∧ (hideSt stVis).1.launcher_items = stVis.launcher_items :=
  ⟨rfl, hide_keeps_results_until_update.2 1 0 Message.hide stVis
    (hideSt stVis).1 (hideSt stVis).2 rfl rfl⟩

lemma lastHide_aux : ∀ f,
    (∀ now m s s' eff, m ≠ Message.layer LayerEvent.unfocused →
        Message.layer LayerEvent.unfocused ∉ s.queue →
        updateF f now m s = Res.ok s' eff →
        s'.last_hide = s.last_hide ∧ Message.layer LayerEvent.unfocused ∉ s'.queue)
    ∧ (∀ now s s' eff, Message.layer LayerEvent.unfocused ∉ s.queue →
        drainF f now s = Res.ok s' eff →
        s'.last_hide = s.last_hide ∧ Message.layer LayerEvent.unfocused ∉ s'.queue) := by
  intro f
  induction f with
  | zero =>
      constructor
      · intro now m s s' eff _ _ h
        simp [updateF, updAux] at h
      · intro now s s' eff _ h
        simp [drainF, updAux] at h
  | succ f ih =>
      constructor
      · intro now m s s' eff hm hq h
        rw [updateF_succ] at h
        cases m with
        | inputChanged v => simp only [updBody] at h; cases h; exact ⟨rfl, hq⟩
        | backspace => simp only [updBody] at h; cases h; exact ⟨rfl, hq⟩
        | tabPress => simp only [updBody] at h; split at h <;> (cases h; exact ⟨rfl, hq⟩)
        | completeFocusedId id =>
            simp only [updBody] at h; split at h <;> (cases h; exact ⟨rfl, hq⟩)
        | activate i =>
            simp only [updBody] at h
            split at h
            · cases h; exact ⟨rfl, hq⟩
            · cases h; exact ⟨hideSt_last_hide s, by simp [hideSt_queue]⟩
        | context i =>
            simp only [updBody] at h
            split at h
            · cases h; exact ⟨rfl, hq⟩
            · split at h <;> (cases h; exact ⟨rfl, hq⟩)
        | menuButton i ctx => simp only [updBody] at h; split at h <;> (cases h; exact ⟨rfl, hq⟩)
        | closeContextMenu => simp only [updBody] at h; split at h <;> (cases h; exact ⟨rfl, hq⟩)
        | cursorMoved p => simp only [updBody] at h; cases h; exact ⟨rfl, hq⟩
        | hide =>
            simp only [updBody] at h
            split at h
            · cases h; exact ⟨rfl, hq⟩
            · cases h; exact ⟨hideSt_last_hide s, by simp [hideSt_queue]⟩
        | launcherEvent ev =>
            cases ev with
            | started => simp only [updBody] at h; cases h; exact ⟨rfl, hq⟩
            | serviceIsClosed => simp only [updBody] at h; cases h; exact ⟨rfl, hq⟩
            | response r =>
                cases r with
                | close =>
                    simp only [updBody] at h; cases h
                    exact ⟨hideSt_last_hide s, by simp [hideSt_queue]⟩
                | context id options =>
                    simp only [updBody] at h
                    split at h
                    · cases h; exact ⟨rfl, hq⟩
                    · split at h <;> (cases h; exact ⟨rfl, hq⟩)
                | desktopEntry p g a => simp only [updBody] at h; cases h; exact ⟨rfl, hq⟩
                | fill t => simp only [updBody] at h; cases h; exact ⟨rfl, hq⟩
                | update l =>
                    simp only [updBody] at h
                    split at h
                    · cases h; exact ⟨hideSt_last_hide s, by simp [hideSt_queue]⟩
                    · split at h
                      · rename_i s2 e2 hd
                        rw [updAux_snd] at hd
                        have r2 := ih.2 now _ s2 e2 (by exact hq) hd
                        split at h <;> (cases h; exact ⟨r2.1, r2.2⟩)
                      · cases h
                      · cases h
        | layer e =>
            cases e with
            | focused => simp only [updBody] at h; cases h; exact ⟨rfl, hq⟩
            | done => simp only [updBody] at h; cases h; exact ⟨rfl, hq⟩
            | unfocused => exact absurd rfl hm
        | keyboardNav n =>
            cases n with
            | focusNext =>
                simp only [updBody] at h
                split at h
                · rename_i s1 heq; cases h
                  exact ⟨(focusNextSt_fields heq).2.1, by rw [(focusNextSt_fields heq).2.2.1]; exact hq⟩
                · cases h
            | focusPrevious =>
                simp only [updBody] at h
                split at h
                · rename_i s1 heq; cases h
                  exact ⟨(focusPrevSt_fields heq).2.1, by rw [(focusPrevSt_fields heq).2.2.1]; exact hq⟩
                · cases h
            | unfocus => simp only [updBody] at h; cases h; exact ⟨rfl, hq⟩
            | other => simp only [updBody] at h; cases h; exact ⟨rfl, hq⟩
        | activationToken tok exec gpu => simp only [updBody] at h; cases h; exact ⟨rfl, hq⟩
        | altTab =>
            simp only [updBody] at h
            split at h
            · rename_i s1 heq; cases h
              exact ⟨(focusNextSt_fields heq).2.1, by rw [(focusNextSt_fields heq).2.2.1]; exact hq⟩
            · cases h
        | shiftAltTab =>
            simp only [updBody] at h
            split at h
            · rename_i s1 heq; cases h
              exact ⟨(focusPrevSt_fields heq).2.1, by rw [(focusPrevSt_fields heq).2.2.1]; exact hq⟩
            · cases h
        | altRelease =>
            simp only [updBody] at h
            split at h
            · rw [updAux_fst] at h
              exact ih.1 now (Message.activate none) s s' eff (by simp) hq h
            · cases h; exact ⟨rfl, hq⟩
      · intro now s s' eff hq h
        rw [drainF_succ] at h
        simp only [drainBody] at h
        split at h
        · cases h; exact ⟨rfl, hq⟩
        · rename_i m rest hqeq
          rw [hqeq] at hq
          have hm_ne : m ≠ Message.layer LayerEvent.unfocused := by
            intro e; exact hq (by rw [e]; exact List.mem_cons_self _ _)
          have hrest : Message.layer LayerEvent.unfocused ∉ rest :=
            fun hr => hq (List.mem_cons_of_mem _ hr)
          split at h
          · rename_i s1 e1 hm1
            split at h
            · rename_i s2 e2 hd2
              rw [updAux_fst] at hm1
              rw [updAux_snd] at hd2
              have r1 := ih.1 now m { s with queue := rest } s1 e1 hm_ne hrest hm1
              have r2 := ih.2 now s1 s2 e2 r1.2 hd2
              cases h
              exact ⟨r2.1.trans r1.1, r2.2⟩
            · cases h
            · cases h
          · cases h
          · cases h

/-- C8 counterexample: hiding the reachable visible state `stVis` (via the
explicit Hide message) at time 5000 enters `Hidden` but leaves
`last_hide = 0` — the transition does not record the current time. -/
theorem hide_does_not_record_time :
    Reach stVis
    ∧ stVis.surface_state = SurfaceState.visible
    ∧ updateF 1 5000 Message.hide stVis = Res.ok (hideSt stVis).1 (hideSt stVis).2
    ∧ (hideSt stVis).1.surface_state = SurfaceState.hidden
    ∧ (hideSt stVis).1.last_hide = 0
    ∧ (0 : Nat) ≠ 5000 :=
  ⟨reach_stVis, rfl, rfl, rfl, rfl, by decide⟩

/-- C8 (amended): only the loss-of-surface-focus path
(`LayerEvent::Unfocused`) records the dispatch time in `last_hide` before
hiding; every other message (with no unfocus event pending in the queue)
leaves `last_hide` unchanged, and so does every dbus activation — in
particular the toggle path (Activate while non-Hidden) and every other
hide path. -/
theorem last_hide_set_only_on_unfocus :
    (∀ f now s s' eff,
        updateF (f + 1) now (Message.layer LayerEvent.unfocused) s = Res.ok s' eff →
        s'.last_hide = now ∧ s'.surface_state = SurfaceState.hidden)
    ∧ (∀ f now m s s' eff, m ≠ Message.layer LayerEvent.unfocused →
        Message.layer LayerEvent.unfocused ∉ s.queue →
        updateF f now m s = Res.ok s' eff → s'.last_hide = s.last_hide)
    ∧ (∀ f now d s s' eff,
        Message.layer LayerEvent.unfocused ∉ s.queue →
        dbusF f now d s = Res.ok s' eff → s'.last_hide = s.last_hide) := by
  refine ⟨?_, ?_, ?_⟩
  · intro f now s s' eff h
    rw [updateF_succ] at h
    simp only [updBody] at h
    cases h
    exact ⟨hideSt_last_hide _, hideSt_surface _⟩
  · intro f now m s s' eff hm hq h
    exact ((lastHide_aux f).1 now m s s' eff hm hq h).1
  · intro f now d s s' eff hq h
    cases f with
    | zero => simp [dbusF] at h
    | succ f =>
        cases d with
        | activate =>
            simp only [dbusF] at h
            split at h
            · cases h; exact hideSt_last_hide s
            · split at h
              · cases h; rfl
              · cases h; rfl
        | activateAction a =>
            cases a with
            | none => simp only [dbusF] at h; cases h; rfl
            | some cmd =>
                cases cmd with
                | altTab =>
                    simp only [dbusF] at h
                    split at h <;> split at h <;>
                      first
                        | (cases h; rfl)
                        | exact ((lastHide_aux f).1 now Message.altTab _ s' eff (by simp)
                            (by exact hq) h).1
                | shiftAltTab =>
                    simp only [dbusF] at h
                    split at h <;> split at h <;>
                      first
                        | (cases h; rfl)
                        | exact ((lastHide_aux f).1 now Message.shiftAltTab _ s' eff (by simp)
                            (by exact hq) h).1
        | openFiles => simp only [dbusF] at h; cases h; rfl

/-- C8 witness: the Hide message keeps `last_hide` (here 0), the dbus
toggle hiding a visible state with `last_hide = 9` keeps it at 9, and an
unfocus event at time 777 sets it to 777 and hides. -/
theorem last_hide_set_only_on_unfocus_witness :
    Message.hide ≠ Message.layer LayerEvent.unfocused
    ∧ Message.layer LayerEvent.unfocused ∉ stVis.queue
    ∧ (hideSt stVis).1.last_hide = stVis.last_hide
    ∧ (hideSt { stVis with last_hide := 9 }).1.last_hide
        = ({ stVis with last_hide := 9 } : St).last_hide
    ∧ ((hideSt { stVis with last_hide := 777 }).1.last_hide = 777
        ∧ (hideSt { stVis with last_hide := 777 }).1.surface_state = SurfaceState.hidden) :=
  ⟨by decide, by decide,
    last_hide_set_only_on_unfocus.2.1 1 0 Message.hide stVis (hideSt stVis).1 (hideSt stVis).2
      (by decide) (by decide) rfl,
    last_hide_set_only_on_unfocus.2.2 1 50 DbusMsg.activate { stVis with last_hide := 9 }
      (hideSt { stVis with last_hide := 9 }).1 (hideSt { stVis with last_hide := 9 }).2
      (by decide) rfl,
    last_hide_set_only_on_unfocus.1 0 777 stVis (hideSt { stVis with last_hide := 777 }).1
      (hideSt { stVis with last_hide := 777 }).2 rfl⟩

lemma getLayer_notin_requestEff (s : St) (r : Request) :
    Effect.getLayerSurface ∉ requestEff s r := by
  unfold requestEff; split_ifs <;> simp

lemma hidden_aux : ∀ f,
    (∀ now m s s' eff, s.surface_state = SurfaceState.hidden →
        updateF f now m s = Res.ok s' eff →
        Effect.getLayerSurface ∉ eff ∧ s'.surface_state = SurfaceState.hidden)
    ∧ (∀ now s s' eff, s.surface_state = SurfaceState.hidden →
        drainF f now s = Res.ok s' eff →
        Effect.getLayerSurface ∉ eff ∧ s'.surface_state = SurfaceState.hidden) := by
  intro f
  induction f with
  | zero =>
      constructor
      · intro now m s s' eff _ h
        simp [updateF, updAux] at h
      · intro now s s' eff _ h
        simp [drainF, updAux] at h
  | succ f ih =>
      constructor
      · intro now m s s' eff hs h
        rw [updateF_succ] at h
        cases m with
        | inputChanged v =>
            simp only [updBody] at h; cases h
            exact ⟨getLayer_notin_requestEff _ _, hs⟩
        | backspace =>
            simp only [updBody] at h; cases h
            exact ⟨getLayer_notin_requestEff _ _, hs⟩
        | tabPress =>
            simp only [updBody] at h
            split at h <;> (cases h; exact ⟨by simp, hs⟩)
        | completeFocusedId id =>
            simp only [updBody] at h
            split at h <;> (cases h; exact ⟨by simp [getLayer_notin_requestEff], hs⟩)
        | activate i =>
            simp only [updBody] at h
            split at h
            · cases h; exact ⟨getLayer_notin_requestEff _ _, hs⟩
            · cases h; exact ⟨hideSt_no_getLayer s, hideSt_surface s⟩
        | context i =>
            simp only [updBody] at h
            split at h
            · cases h; exact ⟨by simp, hs⟩
            · split at h <;> (cases h; exact ⟨by simp [getLayer_notin_requestEff], hs⟩)
        | menuButton i ctx =>
            simp only [updBody] at h
            split at h <;>
              (cases h; exact ⟨by simp [List.mem_append, getLayer_notin_requestEff], hs⟩)
        | closeContextMenu =>
            simp only [updBody] at h
            split at h <;> (cases h; exact ⟨by simp, hs⟩)
        | cursorMoved p => simp only [updBody] at h; cases h; exact ⟨by simp, hs⟩
        | hide =>
            simp only [updBody] at h
            split at h
            · cases h; exact ⟨by simp, hs⟩
            · cases h; exact ⟨hideSt_no_getLayer s, hideSt_surface s⟩
        | launcherEvent ev =>
            cases ev with
            | started => simp only [updBody] at h; cases h; exact ⟨by simp, hs⟩
            | serviceIsClosed =>
                simp only [updBody] at h; cases h
                exact ⟨getLayer_notin_requestEff _ _, hs⟩
            | response r =>
                cases r with
                | close =>
                    simp only [updBody] at h; cases h
                    exact ⟨hideSt_no_getLayer s, hideSt_surface s⟩
                | context id options =>
                    simp only [updBody] at h
                    split at h
                    · cases h; exact ⟨by simp, hs⟩
                    · split at h <;> (cases h; exact ⟨by simp, hs⟩)
                | desktopEntry p g a =>
                    simp only [updBody] at h; cases h; exact ⟨by simp, hs⟩
                | fill t =>
                    simp only [updBody] at h; cases h
                    exact ⟨getLayer_notin_requestEff _ _, hs⟩
                | update l =>
                    simp only [updBody] at h
                    split at h
                    · cases h; exact ⟨hideSt_no_getLayer s, hideSt_surface s⟩
                    · split at h
                      · rename_i s2 e2 hd
                        rw [updAux_snd] at hd
                        have r2 := ih.2 now _ s2 e2 (by exact hs) hd
                        split at h
                        · rename_i hw
                          rw [r2.2] at hw
                          simp at hw
                        · cases h; exact ⟨r2.1, r2.2⟩
                      · cases h
                      · cases h
        | layer e =>
            cases e with
            | focused => simp only [updBody] at h; cases h; exact ⟨by simp, hs⟩
            | done => simp only [updBody] at h; cases h; exact ⟨by simp, hs⟩
            | unfocused =>
                simp only [updBody] at h; cases h
                exact ⟨hideSt_no_getLayer _, hideSt_surface _⟩
        | keyboardNav n =>
            cases n with
            | focusNext =>
                simp only [updBody] at h
                split at h
                · rename_i s1 heq; cases h
                  exact ⟨by simp, by rw [(focusNextSt_fields heq).2.2.2.1]; exact hs⟩
                · cases h
            | focusPrevious =>
                simp only [updBody] at h
                split at h
                · rename_i s1 heq; cases h
                  exact ⟨by simp, by rw [(focusPrevSt_fields heq).2.2.2.1]; exact hs⟩
                · cases h
            | unfocus =>
                simp only [updBody] at h; cases h
                exact ⟨by simp [List.mem_append, getLayer_notin_requestEff], hs⟩
            | other => simp only [updBody] at h; cases h; exact ⟨by simp, hs⟩
        | activationToken tok exec gpu =>
            simp only [updBody] at h; cases h; exact ⟨by simp, hs⟩
        | altTab =>
            simp only [updBody] at h
            split at h
            · rename_i s1 heq; cases h
              exact ⟨by simp, by rw [(focusNextSt_fields heq).2.2.2.1]; exact hs⟩
            · cases h
        | shiftAltTab =>
            simp only [updBody] at h
            split at h
            · rename_i s1 heq; cases h
              exact ⟨by simp, by rw [(focusPrevSt_fields heq).2.2.2.1]; exact hs⟩
            · cases h
        | altRelease =>
            simp only [updBody] at h
            split at h
            · rw [updAux_fst] at h
              exact ih.1 now (Message.activate none) s s' eff hs h
            · cases h; exact ⟨by simp, hs⟩
      · intro now s s' eff hs h
        rw [drainF_succ] at h
        simp only [drainBody] at h
        split at h
        · cases h; exact ⟨by simp, hs⟩
        · rename_i m rest hqeq
          split at h
          · rename_i s1 e1 hm1
            split at h
            · rename_i s2 e2 hd2
              rw [updAux_fst] at hm1
              rw [updAux_snd] at hd2
              have r1 := ih.1 now m { s with queue := rest } s1 e1 (by exact hs) hm1
              have r2 := ih.2 now s1 s2 e2 r1.2 hd2
              cases h
              refine ⟨fun hmem => ?_, r2.2⟩
              rcases List.mem_append.1 hmem with hx | hx
              · exact r1.1 hx
              · exact r2.1 hx
            · cases h
            · cases h
          · cases h
          · cases h

lemma show_only_update_aux : ∀ f now m s s' eff,
    updateF f now m s = Res.ok s' eff → Effect.getLayerSurface ∈ eff →
    ∃ l, m = Message.launcherEvent (LauncherEvent.response (Response.update l)) := by
  intro f
  induction f with
  | zero =>
      intro now m s s' eff h _
      simp [updateF, updAux] at h
  | succ f ih =>
      intro now m s s' eff h hin
      rw [updateF_succ] at h
      cases m with
      | inputChanged v =>
          simp only [updBody] at h; cases h
          exact absurd hin (getLayer_notin_requestEff _ _)
      | backspace =>
          simp only [updBody] at h; cases h
          exact absurd hin (getLayer_notin_requestEff _ _)
      | tabPress =>
          simp only [updBody] at h
          split at h <;> (cases h; exact absurd hin (by simp))
      | completeFocusedId id =>
          simp only [updBody] at h
          split at h <;> (cases h; exact absurd hin (by simp [getLayer_notin_requestEff]))
      | activate i =>
          simp only [updBody] at h
          split at h
          · cases h; exact absurd hin (getLayer_notin_requestEff _ _)
          · cases h; exact absurd hin (hideSt_no_getLayer s)
      | context i =>
          simp only [updBody] at h
          split at h
          · cases h; exact absurd hin (by simp)
          · split at h <;> (cases h; exact absurd hin (by simp [getLayer_notin_requestEff]))
      | menuButton i ctx =>
          simp only [updBody] at h
          split at h <;>
            (cases h; exact absurd hin (by simp [List.mem_append, getLayer_notin_requestEff]))
      | closeContextMenu =>
          simp only [updBody] at h
          split at h <;> (cases h; exact absurd hin (by simp))
      | cursorMoved p => simp only [updBody] at h; cases h; exact absurd hin (by simp)
      | hide =>
          simp only [updBody] at h
          split at h
          · cases h; exact absurd hin (by simp)
          · cases h; exact absurd hin (hideSt_no_getLayer s)
      | launcherEvent ev =>
          cases ev with
          | started => simp only [updBody] at h; cases h; exact absurd hin (by simp)
          | serviceIsClosed =>
              simp only [updBody] at h; cases h
              exact absurd hin (getLayer_notin_requestEff _ _)
          | response r =>
              cases r with
              | update l => exact ⟨l, rfl⟩
              | close =>
                  simp only [updBody] at h; cases h
                  exact absurd hin (hideSt_no_getLayer s)
              | context id options =>
                  simp only [updBody] at h
                  split at h
                  · cases h; exact absurd hin (by simp)
                  · split at h <;> (cases h; exact absurd hin (by simp))
              | desktopEntry p g a =>
                  simp only [updBody] at h; cases h; exact absurd hin (by simp)
              | fill t =>
                  simp only [updBody] at h; cases h
                  exact absurd hin (getLayer_notin_requestEff _ _)
      | layer e =>
          cases e with
          | focused => simp only [updBody] at h; cases h; exact absurd hin (by simp)
          | done => simp only [updBody] at h; cases h; exact absurd hin (by simp)
          | unfocused =>
              simp only [updBody] at h; cases h
              exact absurd hin (hideSt_no_getLayer _)
      | keyboardNav n =>
          cases n with
          | focusNext =>
              simp only [updBody] at h
              split at h
              · cases h; exact absurd hin (by simp)
              · cases h
          | focusPrevious =>
              simp only [updBody] at h
              split at h
              · cases h; exact absurd hin (by simp)
              · cases h
          | unfocus =>
              simp only [updBody] at h; cases h
              exact absurd hin (by simp [List.mem_append, getLayer_notin_requestEff])
          | other => simp only [updBody] at h; cases h; exact absurd hin (by simp)
      | activationToken tok exec gpu =>
          simp only [updBody] at h; cases h; exact absurd hin (by simp)
      | altTab =>
          simp only [updBody] at h
          split at h
          · cases h; exact absurd hin (by simp)
          · cases h
      | shiftAltTab =>
          simp only [updBody] at h
          split at h
          · cases h; exact absurd hin (by simp)
          · cases h
      | altRelease =>
          simp only [updBody] at h
          split at h
          · rw [updAux_fst] at h
            obtain ⟨l, hl⟩ := ih now (Message.activate none) s s' eff h hin
            cases hl
          · cases h; exact absurd hin (by simp)

lemma dbus_no_getLayer : ∀ f now d s s' eff,
    dbusF f now d s = Res.ok s' eff → Effect.getLayerSurface ∉ eff := by
  intro f now d s s' eff h
  cases f with
  | zero => simp [dbusF] at h
  | succ f =>
      cases d with
      | activate =>
          simp only [dbusF] at h
          split at h
          · cases h; exact hideSt_no_getLayer s
          · split at h
            · cases h; exact getLayer_notin_requestEff _ _
            · cases h; simp
      | activateAction a =>
          cases a with
          | none => simp only [dbusF] at h; cases h; simp
          | some cmd =>
              cases cmd with
              | altTab =>
                  simp only [dbusF] at h
                  split at h <;> split at h <;>
                    first
                      | (cases h; exact getLayer_notin_requestEff _ _)
                      | (intro hin
                         obtain ⟨l, hl⟩ := show_only_update_aux f now Message.altTab _ s' eff h hin
                         cases hl)
              | shiftAltTab =>
                  simp only [dbusF] at h
                  split at h <;> split at h <;>
                    first
                      | (cases h; exact getLayer_notin_requestEff _ _)
                      | (intro hin
                         obtain ⟨l, hl⟩ := show_only_update_aux f now Message.shiftAltTab _ s' eff h hin
                         cases hl)
      | openFiles => simp only [dbusF] at h; cases h; simp

/-- C3: the create-main-surface command is never emitted from a hidden
state, it is only ever emitted while processing a `Response::Update`
message, and no dbus activation emits it directly. -/
theorem surface_show_gating :
    (∀ fuel now m s s' eff, s.surface_state = SurfaceState.hidden →
        updateF fuel now m s = Res.ok s' eff → Effect.getLayerSurface ∉ eff)
    ∧ (∀ fuel now m s s' eff, updateF fuel now m s = Res.ok s' eff →
        Effect.getLayerSurface ∈ eff →
        ∃ l, m = Message.launcherEvent (LauncherEvent.response (Response.update l)))
    ∧ (∀ fuel now d s s' eff, dbusF fuel now d s = Res.ok s' eff →
        Effect.getLayerSurface ∉ eff) :=
  ⟨fun fuel now m s s' eff hs h => ((hidden_aux fuel).1 now m s s' eff hs h).1,
    show_only_update_aux, dbus_no_getLayer⟩

/-- C3 witness: the hidden initial state dispatching Hide emits no
create-main-surface command, and the `stWait` to `stVis` update step
(whose trace does contain it) is indeed an update response. -/
theorem surface_show_gating_witness :
    initSt.surface_state = SurfaceState.hidden
    ∧ Effect.getLayerSurface ∉ (hideSt initSt).2
    ∧ ∃ l, Message.launcherEvent (LauncherEvent.response (Response.update [r1]))
        = Message.launcherEvent (LauncherEvent.response (Response.update l)) :=
  ⟨rfl,
    surface_show_gating.1 1 0 Message.hide initSt (hideSt initSt).1 (hideSt initSt).2 rfl rfl,
    surface_show_gating.2.1 2 300
      (Message.launcherEvent (LauncherEvent.response (Response.update [r1])))
      stWait stVis [Effect.getLayerSurface] rfl (by simp)⟩

lemma sortKey_eq_zero {a : SearchResult} (h : a.window.isSome = true) : sortKey a = 0 := by
  unfold sortKey
  obtain ⟨w, hw⟩ := Option.isSome_iff_exists.1 h
  simp [hw]

lemma sortKey_eq_one {a : SearchResult} (h : a.window.isNone = true) : sortKey a = 1 := by
  unfold sortKey
  simp [h]

lemma oi_front {α : Type} (r : α → α → Prop) [DecidableRel r] (a : α) (L : List α)
    (h : ∀ b ∈ L, r a b) : List.orderedInsert r a L = a :: L := by
  cases L with
  | nil => rfl
  | cons b t =>
      simp only [List.orderedInsert]
      rw [if_pos (h b (List.mem_cons_self b t))]

lemma oi_skip {α : Type} (r : α → α → Prop) [DecidableRel r] (a : α) :
    ∀ (S N : List α), (∀ x ∈ S, ¬ r a x) →
      List.orderedInsert r a (S ++ N) = S ++ List.orderedInsert r a N := by
  intro S
  induction S with
  | nil => intro N _; rfl
  | cons x t ih =>
      intro N h
      simp only [List.cons_append, List.orderedInsert]
      rw [if_neg (h x (List.mem_cons_self x t))]
      rw [show t.append N = t ++ N from rfl]
      rw [ih N fun y hy => h y (List.mem_cons_of_mem x hy)]

lemma sortResults_eq_partition (l : List SearchResult) :
    sortResults l = l.filter (fun r => r.window.isSome) ++ l.filter (fun r => r.window.isNone) := by
  induction l with
  | nil => rfl
  | cons a t ih =>
      unfold sortResults at *
      simp only [List.insertionSort]
      rw [ih]
      cases hw : a.window with
      | some w =>
          rw [oi_front]
          · simp [List.filter_cons, hw]
          · intro b _
            rw [sortKey_eq_zero (by simp [hw])]
            exact Nat.zero_le _
      | none =>
          rw [oi_skip]
          · rw [oi_front]
            · simp [List.filter_cons, hw]
            · intro b hb
              have hb2 : b.window.isNone = true := (List.mem_filter.1 hb).2
              rw [sortKey_eq_one (by simp [hw]), sortKey_eq_one hb2]
          · intro x hx
            have hx2 : x.window.isSome = true := (List.mem_filter.1 hx).2
            rw [sortKey_eq_one (by simp [hw]), sortKey_eq_zero hx2]
            omega

lemma pairwise_of_forall_mem {α : Type} {R : α → α → Prop} :
    ∀ {l : List α}, (∀ x ∈ l, ∀ y ∈ l, R x y) → l.Pairwise R := by
  intro l
  induction l with
  | nil => intro _; exact List.Pairwise.nil
  | cons a t ih =>
      intro h
      refine List.Pairwise.cons
        (fun y hy => h a (List.mem_cons_self a t) y (List.mem_cons_of_mem a hy)) (ih ?_)
      intro x hx y hy
      exact h x (List.mem_cons_of_mem a hx) y (List.mem_cons_of_mem a hy)

lemma partition_pairwise (l : List SearchResult) :
    ((l.filter fun r => r.window.isSome) ++ (l.filter fun r => r.window.isNone)).Pairwise
      winPrecedes := by
  rw [List.pairwise_append]
  refine ⟨pairwise_of_forall_mem ?_, pairwise_of_forall_mem ?_, ?_⟩
  · intro x hx y _
    exact fun _ => (List.mem_filter.1 hx).2
  · intro x _ y hy hsome
    have h2 : y.window.isNone = true := (List.mem_filter.1 hy).2
    cases hyw : y.window with
    | none => rw [hyw] at hsome; cases hsome
    | some w => rw [hyw] at h2; cases h2
  · intro a ha b _
    exact fun _ => (List.mem_filter.1 ha).2

/-- C6: whenever a `Response::Update` is applied (not the empty-switcher
hide case, no pending queue), the stored result list is exactly the
stable window-first partition of the incoming list truncated to 10, so it
has at most 10 entries and every window-backed entry precedes every
window-less one. -/
theorem update_sorts_truncates :
    ∀ f now s l s' eff,
      s.queue = [] →
      ¬(s.alt_tab = true ∧ l = []) →
      updateF (f + 2) now (Message.launcherEvent (LauncherEvent.response (Response.update l))) s
        = Res.ok s' eff →
      s'.launcher_items =
          ((l.filter fun r => r.window.isSome) ++ (l.filter fun r => r.window.isNone)).take 10
        ∧ s'.launcher_items.length ≤ 10
        ∧ s'.launcher_items.Pairwise winPrecedes := by
  intro f now s l s' eff hq hno h
  rw [updateF_succ] at h
  simp only [updBody] at h
  rw [if_neg hno] at h
  rw [updAux_snd, drainF_succ] at h
  simp only [drainBody] at h
  rw [hq] at h
  dsimp only at h
  split at h <;>
    (cases h
     refine ⟨?_, ?_, ?_⟩
     · show (sortResults l).take 10 = _
       rw [sortResults_eq_partition]
     · show ((sortResults l).take 10).length ≤ 10
       rw [List.length_take]
       exact min_le_left _ _
     · show ((sortResults l).take 10).Pairwise winPrecedes
       rw [sortResults_eq_partition]
       exact List.Pairwise.sublist (List.take_sublist _ _) (partition_pairwise l))

/-- C6 witness: updating `stWait` with the list `[r1, rw1]` stores the
window-first partition `[rw1, r1]`. -/
theorem update_sorts_truncates_witness :
    stWait.queue = []
    ∧ ¬(stWait.alt_tab = true ∧ [r1, rw1] = ([] : List SearchResult))
    ∧ (({ stWait with launcher_items := [rw1, r1], surface_state := SurfaceState.visible } : St).launcher_items =
          (([r1, rw1].filter fun r => r.window.isSome)
            ++ ([r1, rw1].filter fun r => r.window.isNone)).take 10
        ∧ ({ stWait with launcher_items := [rw1, r1], surface_state := SurfaceState.visible } : St).launcher_items.length ≤ 10
        ∧ ({ stWait with launcher_items := [rw1, r1], surface_state := SurfaceState.visible } : St).launcher_items.Pairwise winPrecedes) :=
  ⟨rfl, by decide,
    update_sorts_truncates 0 300 stWait [r1, rw1]
      { stWait with launcher_items := [rw1, r1], surface_state := SurfaceState.visible }
      [Effect.getLayerSurface] rfl (by decide) rfl⟩

/-- C4: with `pending_queue = [A, B]`, processing the next
`Response::Update` applies A (on the freshly stored results) and then B
in FIFO order, and the whole effect trace is A's effects, then B's
effects, and only then the create-main-surface command of the
waiting-to-be-shown transition. -/
theorem queue_drain_fifo_before_show :
    ∀ f now s l A B sA sB effA effB,
      s.queue = [A, B] →
      ¬(s.alt_tab = true ∧ l = []) →
      updateF (f + 2) now A { s with launcher_items := (sortResults l).take 10, queue := [B] }
        = Res.ok sA effA →
      sA.queue = [B] →
      updateF (f + 1) now B { sA with queue := [] } = Res.ok sB effB →
      sB.queue = [] →
      sB.surface_state = SurfaceState.waitingToBeShown →
      updateF (f + 4) now (Message.launcherEvent (LauncherEvent.response (Response.update l))) s =
        Res.ok { sB with surface_state := SurfaceState.visible }
          (effA ++ effB ++ [Effect.getLayerSurface]) := by
  intro f now s l A B sA sB effA effB hq hno hA hAq hB hBq hBs
  have e1 : updateF (f + 4) now
        (Message.launcherEvent (LauncherEvent.response (Response.update l))) s
      = updBody (updAux (f + 3)).1 (updAux (f + 3)).2 now
          (Message.launcherEvent (LauncherEvent.response (Response.update l))) s := rfl
  rw [e1]
  simp only [updBody]
  rw [if_neg hno]
  have e2 : (updAux (f + 3)).2 = drainBody (updAux (f + 2)).1 (updAux (f + 2)).2 := rfl
  rw [e2]
  simp only [drainBody]
  rw [hq]
  dsimp only
  have e3 : ((updAux (f + 2)).1 : Nat → Message → St → Res) = updateF (f + 2) := rfl
  rw [e3, hA]
  dsimp only
  have e4 : (updAux (f + 2)).2 = drainBody (updAux (f + 1)).1 (updAux (f + 1)).2 := rfl
  rw [e4]
  simp only [drainBody]
  rw [hAq]
  dsimp only
  have e5 : ((updAux (f + 1)).1 : Nat → Message → St → Res) = updateF (f + 1) := rfl
  rw [e5, hB]
  dsimp only
  have e6 : (updAux (f + 1)).2 = drainBody (updAux f).1 (updAux f).2 := rfl
  rw [e6]
  simp only [drainBody]
  rw [hBq]
  dsimp only
  rw [if_pos hBs]
  simp [showSt, hBq]

/-- C4 witness: two queued alt-tab cycles are drained in order (focus
0 → 1 → 0 on a two-element window list) strictly before the show
command, which is the last effect. -/
theorem queue_drain_fifo_before_show_witness :
    stQueue.queue = [Message.altTab, Message.altTab]
    ∧ updateF 4 0
        (Message.launcherEvent (LauncherEvent.response (Response.update [rw1, rw2]))) stQueue
      = Res.ok
          { stQueue with launcher_items := [rw1, rw2], queue := [], focused := 0, surface_state := SurfaceState.visible }
          [Effect.getLayerSurface] := by
  refine ⟨rfl, ?_⟩
  have happ := queue_drain_fifo_before_show 0 0 stQueue [rw1, rw2] Message.altTab Message.altTab
    { stQueue with launcher_items := [rw1, rw2], queue := [Message.altTab], focused := 1 }
    { stQueue with launcher_items := [rw1, rw2], queue := [], focused := 0 }
    [] [] rfl (by decide) rfl rfl rfl rfl rfl
  simpa using happ
